import Mathlib

/-!
Shallow embedding of `src/ssd_detect_rtsp.cpp`, the SSD object-detection demo
(detector, preprocessing, RTSP/video/image driver).  Machine `float` values are
modelled as exact rationals (`ℚ`); `cv::Mat` images are modelled as a shape
triple plus a pixel function; pointers into the network's input blob are
modelled as offsets from the blob's base address.  Fatal `CHECK`/`LOG(FATAL)`
conditions are modelled with `Except String`.
-/

/-- C++ `static_cast<int>` applied to a float: truncation toward zero.  Both
branches divide a nonnegative numerator by a positive denominator, so the
definition does not depend on the rounding convention of `Int`'s division. -/
def cppTrunc (q : ℚ) : ℤ :=
  if 0 ≤ q then q.num / (q.den : ℤ) else -((-q).num / (((-q).den : ℤ)))

/-- Detector::Detect, lines 102-117: walk the flat output buffer of the forward
pass in strides of 7 floats, `num_det` times; a record whose first field is the
sentinel `-1` is skipped, every other record is copied out whole.  The buffer
pointer advance `result += 7` is modelled by `List.drop 7`; the read
`result[0]` by `headD 0` (the blob provides at least `7 * num_det` floats). -/
def Detect : List ℚ → ℕ → List (List ℚ)
  | _, 0 => []
  | res, Nat.succ k =>
    if res.headD 0 = -1 then Detect (res.drop 7) k
    else res.take 7 :: Detect (res.drop 7) k

/-- The raw stride-7 records of an output buffer, before any skipping:
record `k` is `(res.drop (7*k)).take 7`. -/
def recordsOf : List ℚ → ℕ → List (List ℚ)
  | _, 0 => []
  | res, Nat.succ k => res.take 7 :: recordsOf (res.drop 7) k

/-- The driver's confidence filter (main, lines 597-598 and the analogous video
and RTSP branches): keep a detection record `d` iff `d[2] >= confidence_threshold`. -/
def driverFilter (θ : ℚ) (dets : List (List ℚ)) : List (List ℚ) :=
  dets.filter (fun d => decide (θ ≤ d.getD 2 0))

/-- One printed output line of the driver (main, lines 599-605): label prefix,
`(int)d[1]`, the raw score, and the four box coordinates scaled by the original
frame's `cols`/`rows` and cast to `int`. -/
structure OutLine where
  label : String
  labelId : ℤ
  score : ℚ
  xmin : ℤ
  ymin : ℤ
  xmax : ℤ
  ymax : ℤ
deriving DecidableEq

/-- Formatting of a single above-threshold detection `d` against a frame of
`cols` columns and `rows` rows (main, lines 599-605). -/
def formatDet (label : String) (d : List ℚ) (cols rows : ℕ) : OutLine :=
  { label := label
    labelId := cppTrunc (d.getD 1 0)
    score := d.getD 2 0
    xmin := cppTrunc (d.getD 3 0 * (cols : ℚ))
    ymin := cppTrunc (d.getD 4 0 * (rows : ℚ))
    xmax := cppTrunc (d.getD 5 0 * (cols : ℚ))
    ymax := cppTrunc (d.getD 6 0 * (rows : ℚ)) }

/-- The driver's per-frame result loop (main, lines 593-607): threshold filter
followed by line formatting, in buffer order. -/
def printDetections (label : String) (θ : ℚ) (dets : List (List ℚ)) (cols rows : ℕ) :
    List OutLine :=
  (driverFilter θ dets).map (fun d => formatDet label d cols rows)

/-- The four box fields of an output line. -/
def boxOfLine (l : OutLine) : ℤ × ℤ × ℤ × ℤ := (l.xmin, l.ymin, l.xmax, l.ymax)

/-- Spec-side definition (spec.md section 3, DetectionRecord, and section 8,
round-trip property): multiply the normalized box coordinates by the original
frame's width/height and truncate to int.  Stated independently of `formatDet`
so the two can be compared. -/
def specScaledBox (xmin ymin xmax ymax : ℚ) (w h : ℕ) : ℤ × ℤ × ℤ × ℤ :=
  (cppTrunc (xmin * (w : ℚ)), cppTrunc (ymin * (h : ℚ)),
   cppTrunc (xmax * (w : ℚ)), cppTrunc (ymax * (h : ℚ)))

/-- A `cv::Mat` image: channel count, spatial shape, and the pixel value at
(row, column, channel). -/
structure Img where
  channels : ℕ
  height : ℕ
  width : ℕ
  px : ℕ → ℕ → ℕ → ℚ

/-- A default-constructed (empty) `cv::Mat`. -/
def emptyMat : Img := ⟨0, 0, 0, fun _ _ _ => 0⟩

/-- The decoded contents of a binaryproto mean file (`BlobProto` loaded into a
`Blob<float>`, lines 125-130): channel count, spatial shape, and the flat data
array in planar (channel-major) layout. -/
structure MeanBlob where
  channels : ℕ
  height : ℕ
  width : ℕ
  data : List ℚ

/-- Value of the mean file at a given (row, column, channel) position, reading
the planar layout documented at line 134. -/
def filePixel (blob : MeanBlob) (r c ch : ℕ) : ℚ :=
  blob.data.getD (ch * (blob.height * blob.width) + r * blob.width + c) 0

/-- The per-channel global mean computed by `cv::mean(mean)` at line 150: the
average of channel `ch` of the merged mean image, i.e. of the `ch`-th planar
slice of the blob data. -/
def channelAvg (blob : MeanBlob) (ch : ℕ) : ℚ :=
  ((blob.data.drop (ch * (blob.height * blob.width))).take (blob.height * blob.width)).sum /
    ((blob.height * blob.width : ℕ) : ℚ)

/-- The mean image built from a mean file (SetMean, lines 125-151): a constant
image of network-input size whose channel `ch` is everywhere filled with the
global channel mean `channelAvg blob ch`. -/
def meanFromFile (blob : MeanBlob) (netH netW : ℕ) : Img :=
  ⟨blob.channels, netH, netW, fun _ _ ch => channelAvg blob ch⟩

/-- The mean image built from per-channel scalars (SetMean, lines 166-173):
channel `ch` is everywhere filled with the `ch`-th extracted scalar. -/
def meanFromValues (chs : List ℚ) (numChannels netH netW : ℕ) : Img :=
  ⟨numChannels, netH, netW, fun _ _ ch => chs.getD ch 0⟩

/-- Accumulate decimal digits into a natural number, as repeated
`acc * 10 + digit`. -/
def natFromDigits (cs : List Char) : ℕ :=
  cs.foldl (fun acc c => acc * 10 + (c.toNat - 48)) 0

/-- C `atof` as used at line 160: optional leading spaces and sign, integer
digits, optional fraction after a decimal point; parsing stops at the first
unexpected character and an empty parse yields 0.  (Exponent notation is not
modelled; the flag values are plain decimals.) -/
def atofQ (s : String) : ℚ :=
  let cs := s.toList.dropWhile (fun c => decide (c = ' '))
  let signAndRest : ℚ × List Char :=
    match cs with
    | '-' :: rest => (-1, rest)
    | '+' :: rest => (1, rest)
    | _ => (1, cs)
  let ip := signAndRest.2.takeWhile (fun c => c.isDigit)
  let rest := signAndRest.2.dropWhile (fun c => c.isDigit)
  let fracPart : ℚ :=
    match rest with
    | '.' :: r2 =>
      let fp := r2.takeWhile (fun c => c.isDigit)
      ((natFromDigits fp : ℕ) : ℚ) / ((10 : ℚ) ^ fp.length)
    | _ => 0
  signAndRest.1 * (((natFromDigits ip : ℕ) : ℚ) + fracPart)

/-- Comma splitting with `getline(ss, item, ',')` semantics (line 159): like
splitting on every comma, except that a trailing empty field is not produced
(after the last comma of `"a,"` the stream is at end-of-file, so the final
`getline` fails), and the empty string produces no fields at all. -/
def splitCommaGo : List Char → List Char → List String
  | [], acc => [String.mk acc.reverse]
  | c :: rest, acc =>
    if c = ',' then String.mk acc.reverse :: splitCommaGo rest []
    else splitCommaGo rest (c :: acc)

/-- Split a mean-value flag string into comma-separated items, `getline` style. -/
def getlineSplit (s : String) : List String :=
  let parts := splitCommaGo s.toList []
  if parts.getLast? = some "" then parts.dropLast else parts

/-- The channel-filling loop of SetMean, lines 167-172: for `i` from 0 to
`numChannels - 1`, read `values[i]`.  `std::vector::operator[]` past the end of
the vector is undefined behavior in C++; the model makes that read a
distinguishable failure (`none`). -/
def extractGo (values : List ℚ) : ℕ → ℕ → Option (List ℚ)
  | _, 0 => some []
  | i, Nat.succ k =>
    match values[i]?, extractGo values (i + 1) k with
    | some v, some rest => some (v :: rest)
    | _, _ => none

/-- Per-channel scalars read by SetMean's value branch: `values[i]` for each of
the `numChannels` channels. -/
def extractValueChannels (values : List ℚ) (numChannels : ℕ) : Option (List ℚ) :=
  extractGo values 0 numChannels

/-- Detector::SetMean, lines 120-175.  A configured mean file is modelled as
`some blob` (the decoded binaryproto); a configured mean value as a nonempty
flag string.  The two `CHECK(... empty())` guards, the channel-count check and
the value-count check become `Except.error`; when nothing is configured the
member `mean_` keeps its default empty-`cv::Mat` value. -/
def SetMean (meanFile : Option MeanBlob) (meanValue : String)
    (numChannels netH netW : ℕ) : Except String Img :=
  match meanFile with
  | some blob =>
    if meanValue ≠ "" then
      Except.error "Cannot specify mean_file and mean_value at the same time"
    else if blob.channels ≠ numChannels then
      Except.error "Number of channels of mean file does not match input layer."
    else
      Except.ok (meanFromFile blob netH netW)
  | none =>
    if meanValue ≠ "" then
      let values := (getlineSplit meanValue).map atofQ
      if ¬(values.length = 1 ∨ values.length = numChannels) then
        Except.error "Specify either 1 mean_value or as many as channels"
      else
        match extractValueChannels values numChannels with
        | none => Except.error "vector subscript out of range (undefined behavior)"
        | some chs => Except.ok (meanFromValues chs numChannels netH netW)
    else
      Except.ok emptyMat

/-- Whether a modelled computation ended in a fatal `CHECK`/`LOG(FATAL)`. -/
def isFatal {α : Type} : Except String α → Bool
  | Except.error _ => true
  | Except.ok _ => false

/-- cvtColor with COLOR_BGR2GRAY (Preprocess, line 200): luma-weighted
grayscale of a BGR image (channel 0 = blue, 1 = green, 2 = red).  The OpenCV
conversion is an external library call; it is modelled by its documented
formula Y = 0.299 R + 0.587 G + 0.114 B, in exact rationals. -/
def cvtBGR2GRAY (img : Img) : Img :=
  ⟨1, img.height, img.width, fun r c _ =>
    (299 / 1000 : ℚ) * img.px r c 2 + (587 / 1000 : ℚ) * img.px r c 1 +
      (114 / 1000 : ℚ) * img.px r c 0⟩

/-- cvtColor with COLOR_BGRA2GRAY (Preprocess, line 202): same luma formula,
alpha ignored. -/
def cvtBGRA2GRAY (img : Img) : Img :=
  ⟨1, img.height, img.width, fun r c _ =>
    (299 / 1000 : ℚ) * img.px r c 2 + (587 / 1000 : ℚ) * img.px r c 1 +
      (114 / 1000 : ℚ) * img.px r c 0⟩

/-- cvtColor with COLOR_BGRA2BGR (Preprocess, line 204): drop the alpha
channel, keep B, G, R. -/
def cvtBGRA2BGR (img : Img) : Img :=
  ⟨3, img.height, img.width, fun r c ch => img.px r c ch⟩

/-- cvtColor with COLOR_GRAY2BGR (Preprocess, line 206): replicate the single
channel into B, G and R. -/
def cvtGRAY2BGR (img : Img) : Img :=
  ⟨3, img.height, img.width, fun r c _ => img.px r c 0⟩

/-- The channel-conversion dispatch of Preprocess, lines 198-208: four explicit
(source channels, network channels) cases, otherwise `sample = img` unchanged. -/
def sampleConvert (img : Img) (numChannels : ℕ) : Img :=
  if img.channels = 3 ∧ numChannels = 1 then cvtBGR2GRAY img
  else if img.channels = 4 ∧ numChannels = 1 then cvtBGRA2GRAY img
  else if img.channels = 4 ∧ numChannels = 3 then cvtBGRA2BGR img
  else if img.channels = 1 ∧ numChannels = 3 then cvtGRAY2BGR img
  else img

/-- cv::resize to the network geometry (Preprocess, line 212).  The external
interpolation is modelled as index-remapping sampling; the claims about
Preprocess depend only on the output shape and on the skip branch below. -/
def resizeImg (s : Img) (netH netW : ℕ) : Img :=
  ⟨s.channels, netH, netW, fun r c ch => s.px (r * s.height / netH) (c * s.width / netW) ch⟩

/-- The conditional resize of Preprocess, lines 210-214: resize exactly when
the sample's size differs from `input_geometry_`, else pass the sample through. -/
def resizeStep (s : Img) (netH netW : ℕ) : Img :=
  if ¬(s.height = netH ∧ s.width = netW) then resizeImg s netH netW else s

/-- convertTo CV_32FC3 / CV_32FC1 (Preprocess, lines 216-220): promotion of
8-bit samples to float preserves the numeric value, so in the rational model
it is the identity on pixels. -/
def convertToFloat (s : Img) : Img := s

/-- cv::subtract of the mean image (Preprocess, lines 222-223): elementwise
difference. -/
def subtractImg (a b : Img) : Img :=
  ⟨a.channels, a.height, a.width, fun r c ch => a.px r c ch - b.px r c ch⟩

/-- The network's input tensor buffer: shape plus the flat contiguous float
buffer the forward pass reads. -/
structure InputTensor where
  channels : ℕ
  height : ℕ
  width : ℕ
  buf : ℕ → ℚ

/-- cv::split into the wrapped channel planes (Preprocess, line 228): the
normalized image is written to the input blob in planar (channel-major) order,
so flat index `ch * h * w + r * w + c` holds pixel (r, c) of channel ch. -/
def splitToTensor (s : Img) : InputTensor :=
  ⟨s.channels, s.height, s.width, fun idx =>
    s.px ((idx % (s.height * s.width)) / s.width) (idx % s.width)
      (idx / (s.height * s.width))⟩

/-- Detector::Preprocess, lines 195-233: channel conversion, conditional
resize, float promotion, mean subtraction, channel split into the input
tensor. -/
def Preprocess (img : Img) (numChannels netH netW : ℕ) (mean : Img) : InputTensor :=
  splitToTensor
    (subtractImg (convertToFloat (resizeStep (sampleConvert img numChannels) netH netW)) mean)

/-- One wrapped channel of the input blob (WrapInputLayer, lines 188-192): a
`cv::Mat` header whose storage starts `offset` floats past the blob's base
address and covers `size = width * height` floats. -/
structure ChannelView where
  offset : ℕ
  size : ℕ
deriving DecidableEq

/-- The wrapping loop of WrapInputLayer, lines 188-192: push a view at the
current `input_data` position, then advance the pointer by `width * height`. -/
def wrapGo (sz : ℕ) (off : ℕ) : ℕ → List ChannelView
  | 0 => []
  | Nat.succ k => ⟨off, sz⟩ :: wrapGo sz (off + sz) k

/-- Detector::WrapInputLayer, lines 182-193: one view per channel, starting at
the blob's base address (offset 0). -/
def WrapInputLayer (numChannels w h : ℕ) : List ChannelView :=
  wrapGo (w * h) 0 numChannels

/-- The defensive aliasing check of Preprocess, lines 230-232: the first
channel view's storage must be the blob's base address (offset 0); a violation
is a fatal `CHECK` failure, not a recoverable condition. -/
def aliasCheck (views : List ChannelView) : Except String Unit :=
  if (views.headD ⟨0, 0⟩).offset = 0 then Except.ok ()
  else Except.error "Input channels are not wrapping the input layer of the network."

/-- Zero-padded frame counter of the video branch (main, line 632):
`std::setfill('0') << std::setw(6)` pads the decimal digits to width 6 on the
left and never truncates. -/
def zeroPad6 (n : ℕ) : String :=
  String.mk (List.replicate (6 - (toString n).length) '0') ++ toString n

/-- The video frame loop of main, lines 613-642, over the finite list of
decodable frames `cap.read` yields before end-of-stream.  Each iteration
labels its output lines with `file ++ "_" ++ zeroPad6 frame_count`, then
increments `frame_count`; when `cap.read` fails the loop logs the total frame
count (the second component) and breaks.  The network forward pass is the
opaque function `net`, giving the flat output buffer and its detection
count. -/
def videoGo (net : Img → List ℚ × ℕ) (θ : ℚ) (file : String) :
    List Img → ℕ → List (String × List OutLine) × ℕ
  | [], n => ([], n)
  | img :: rest, n =>
    let dets := Detect (net img).1 (net img).2
    let label := file ++ "_" ++ zeroPad6 n
    let lines := printDetections label θ dets img.width img.height
    let r := videoGo net θ file rest (n + 1)
    ((label, lines) :: r.1, r.2)

/-- The video branch of main, lines 608-645: an unopenable file is
`LOG(FATAL)`; an opened capture runs the frame loop from frame index 0 and
terminates cleanly at end-of-stream. -/
def videoBranch (net : Img → List ℚ × ℕ) (θ : ℚ) (file : String)
    (cap : Option (List Img)) : Except String (List (String × List OutLine) × ℕ) :=
  match cap with
  | none => Except.error ("Failed to open video: " ++ file)
  | some frames => Except.ok (videoGo net θ file frames 0)

/-- Loop control of the RTSP while-loop (main, lines 554-580): continue,
break (the `cvWaitKey == 'q'` branch), or a fatal abort (which the loop body
never produces). -/
inductive LoopCtl where
  | cont : LoopCtl
  | brk : LoopCtl
  | fatal : LoopCtl
deriving DecidableEq

/-- RTSP_Stream::GetFrame, lines 321-332: pull a frame; an empty pull logs
`"Can't get frame: " ++ source` and leaves the empty frame in place, with no
other effect. -/
def GetFrame (source : String) (pull : Option Img) : Img × List String :=
  match pull with
  | some f => (f, [])
  | none => (emptyMat, ["Can't get frame: " ++ source])

/-- The result of one RTSP loop iteration: the log messages it printed, the
detection lines it emitted, and what the loop does next. -/
structure RtspStepOut where
  logs : List String
  lines : List OutLine
  ctl : LoopCtl

/-- One iteration of the RTSP while-loop (main, lines 554-580): GetFrame,
Detect, print the filtered detections (labelled with the list-file entry,
no frame index), then break iff `cvWaitKey` returned `'q'`. -/
def rtspLoopStep (net : Img → List ℚ × ℕ) (θ : ℚ) (source file : String)
    (pull : Option Img) (key : Char) : RtspStepOut :=
  let fr := GetFrame source pull
  let dets := Detect (net fr.1).1 (net fr.1).2
  let lines := printDetections file θ dets fr.1.width fr.1.height
  ⟨fr.2, lines, if key = 'q' then LoopCtl.brk else LoopCtl.cont⟩

/-- The helper `trim` of lines 349-358: an empty string is returned as is;
otherwise leading spaces are erased, then everything after the last non-space
character. -/
def trim (s : String) : String :=
  if s = "" then s
  else String.mk (((s.toList.dropWhile (fun c => decide (c = ' '))).reverse.dropWhile
    (fun c => decide (c = ' '))).reverse)

/-- The five local variables getAlgConf parses into (lines 364-368).  They are
locals of the function and die at its closing brace. -/
structure AlgConf where
  confidence_threshold : String
  file_type : String
  model_file : String
  weights_file : String
  list_file : String
deriving DecidableEq

/-- One iteration of getAlgConf's line loop, lines 374-404: split at the first
`'='` (when none is found, `find` yields `npos`, converted to `int` -1, so the
key is the whole trimmed line and the value starts at position 0), trim the
key, and on a recognized key store the trimmed value (the in-place `trim`
applies to the threshold as well, at line 383). -/
def algStep (conf : AlgConf) (item : String) : AlgConf :=
  let split_pos : Option ℕ := item.toList.findIdx? (fun c => decide (c = '='))
  let prefix_str : String :=
    match split_pos with
    | some p => trim (String.mk (item.toList.take p))
    | none => trim item
  let value : String :=
    match split_pos with
    | some p => String.mk (item.toList.drop (p + 1))
    | none => item
  if prefix_str = "threshold" then { conf with confidence_threshold := trim value }
  else if prefix_str = "type" then { conf with file_type := trim value }
  else if prefix_str = "model" then { conf with model_file := trim value }
  else if prefix_str = "data" then { conf with weights_file := trim value }
  else if prefix_str = "listfile" then { conf with list_file := trim value }
  else conf

/-- getAlgConf, lines 360-406: fold the key=value parser over the config-file
lines, starting from empty locals.  The function returns nothing and stores
nothing outside its own stack frame. -/
def getAlgConf (lines : List String) : AlgConf :=
  lines.foldl algStep ⟨"", "", "", "", ""⟩

/-- The settings the run actually uses. -/
structure PipelineSettings where
  model_file : String
  weights_file : String
  list_file : String
  file_type : String
  confidence_threshold : ℚ

/-- The effective configuration of main, lines 422-436: `getAlgConf()` is
called (line 422) and its locals are discarded; every setting then comes from
the positional arguments and the gflags values (lines 429-436). -/
def mainEffectiveSettings (argv : List String) (flag_file_type : String)
    (flag_confidence_threshold : ℚ) (algLines : List String) : PipelineSettings :=
  let _alg := getAlgConf algLines
  { model_file := argv.getD 1 ""
    weights_file := argv.getD 2 ""
    list_file := argv.getD 3 ""
    file_type := flag_file_type
    confidence_threshold := flag_confidence_threshold }

section

attribute [local semireducible] Rat.mul Rat.add Rat.sub Rat.inv

/-- Reading the first field of a stride record sees the first float at the
current buffer position. -/
theorem headD_take_seven (res : List ℚ) : (res.take 7).headD 0 = res.headD 0 := by
  cases res <;> simp

/-- Detect is exactly the sentinel filter over the raw stride-7 records. -/
theorem detect_eq_filter (n : ℕ) :
    ∀ res : List ℚ, Detect res n =
      (recordsOf res n).filter (fun r => decide (¬ r.headD 0 = -1)) := by
  induction n with
  | zero => intro res; rfl
  | succ k ih =>
    intro res
    by_cases h : res.headD 0 = -1
    · rw [Detect, if_pos h, recordsOf, List.filter_cons, ih]
      rw [show (decide (¬ (res.take 7).headD 0 = -1)) = false from by
        rw [headD_take_seven]; simpa using h]
      simp
    · rw [Detect, if_neg h, recordsOf, List.filter_cons, ih]
      rw [show (decide (¬ (res.take 7).headD 0 = -1)) = true from by
        rw [headD_take_seven]; simpa using h]
      simp

/-- The raw records are the stride-7 reads `(res.drop (7*k)).take 7`. -/
theorem recordsOf_eq_range (n : ℕ) :
    ∀ res : List ℚ, recordsOf res n = (List.range n).map (fun k => (res.drop (7 * k)).take 7) := by
  induction n with
  | zero => intro res; rfl
  | succ k ih =>
    intro res
    rw [recordsOf, ih (res.drop 7), List.range_succ_eq_map, List.map_cons, List.map_map]
    have hf : ((fun k => (res.drop (7 * k)).take 7) ∘ Nat.succ) =
        fun j => ((res.drop 7).drop (7 * j)).take 7 := by
      funext j
      have h1 : (res.drop 7).drop (7 * j) = res.drop (7 + 7 * j) := List.drop_drop (7 * j) 7 res
      have h2 : 7 * Nat.succ j = 7 + 7 * j := by omega
      show (res.drop (7 * Nat.succ j)).take 7 = ((res.drop 7).drop (7 * j)).take 7
      rw [h1, h2]
    rw [hf]
    simp


/-- C1 (amended): the decoder walks the output buffer in fixed strides of 7
floats and skips exactly the records whose first field is the sentinel -1; a
record reaches the driver's result sequence iff it is a stride-7 record of the
buffer that is not a sentinel and whose score (field 2) is at least
`confidence_threshold`.  The sequence returned by `Detect` itself, however, is
only sentinel-filtered; the threshold is applied by the driver (see the
counterexample). -/
theorem c1_decode_then_filter (θ : ℚ) (res : List ℚ) (n : ℕ) :
    recordsOf res n = (List.range n).map (fun k => (res.drop (7 * k)).take 7) ∧
    ∀ r : List ℚ, r ∈ driverFilter θ (Detect res n) ↔
      (r ∈ recordsOf res n ∧ ¬ r.headD 0 = -1 ∧ θ ≤ r.getD 2 0) := by
  refine ⟨recordsOf_eq_range n res, fun r => ?_⟩
  rw [driverFilter, detect_eq_filter, List.mem_filter, List.mem_filter]
  simp [and_assoc]

/-- C1, counterexample to the claim as stated: on a one-record buffer whose
score 0 lies below the threshold 1/2, `Detect` still returns the record, so
the sequence returned by Detect itself is not threshold-filtered. -/
theorem c1_claim_counterexample :
    ¬ (∀ r ∈ Detect [0, 1, 0, 0, 0, 0, 0] 1, (1 : ℚ)/2 ≤ r.getD 2 0) := by
  decide


/-- C4: every emitted output line carries the pixel box obtained by scaling its
record's normalized coordinates by the original frame's width and height and
truncating to int, and on the spec's example coordinates
(0.1, 0.2, 0.5, 0.6) against a 100 x 200 frame that box is (10, 40, 50, 120). -/
theorem c4_box_scaling (label : String) (θ : ℚ) (dets : List (List ℚ))
    (cols rows : ℕ) (l : OutLine)
    (hl : l ∈ printDetections label θ dets cols rows) :
    (∃ d ∈ dets, θ ≤ d.getD 2 0 ∧
      boxOfLine l =
        specScaledBox (d.getD 3 0) (d.getD 4 0) (d.getD 5 0) (d.getD 6 0) cols rows) ∧
    specScaledBox (1/10) (2/10) (1/2) (3/5) 100 200 = (10, 40, 50, 120) := by
  constructor
  · rw [printDetections] at hl
    obtain ⟨d, hd, rfl⟩ := List.mem_map.mp hl
    rw [driverFilter, List.mem_filter] at hd
    exact ⟨d, hd.1, by simpa using hd.2, rfl⟩
  · decide

/-- C4 witness: a concrete record with score 9/10 above threshold 1/2 against
a 100 x 200 frame, run through the driver's filtering and formatting. -/
theorem c4_box_scaling_witness :
    (formatDet "img1.jpg" [0, 2, 9/10, 1/10, 2/10, 1/2, 3/5] 100 200 ∈
      printDetections "img1.jpg" (1/2) [[0, 2, 9/10, 1/10, 2/10, 1/2, 3/5]] 100 200) ∧
    ((∃ d ∈ [[(0 : ℚ), 2, 9/10, 1/10, 2/10, 1/2, 3/5]], (1 : ℚ)/2 ≤ d.getD 2 0 ∧
      boxOfLine (formatDet "img1.jpg" [0, 2, 9/10, 1/10, 2/10, 1/2, 3/5] 100 200) =
        specScaledBox (d.getD 3 0) (d.getD 4 0) (d.getD 5 0) (d.getD 6 0) 100 200) ∧
     specScaledBox (1/10) (2/10) (1/2) (3/5) 100 200 = (10, 40, 50, 120)) :=
  ⟨by decide, c4_box_scaling "img1.jpg" (1/2) _ 100 200 _ (by decide)⟩

/-- C2 (amended): when a mean file is configured, SetMean succeeds (given a
matching channel count) but the mean image it stores is constant across pixel
positions: every channel is filled with the file's global per-channel average,
not with the file's per-pixel values. -/
theorem c2_mean_file_is_global_average (blob : MeanBlob) (numChannels netH netW : ℕ)
    (hc : blob.channels = numChannels) :
    SetMean (some blob) "" numChannels netH netW =
      Except.ok (meanFromFile blob netH netW) ∧
    (meanFromFile blob netH netW).px = fun _ _ ch => channelAvg blob ch := by
  refine ⟨?_, rfl⟩
  simp [SetMean, hc]

/-- C2 witness: the mean file with one channel, one row, two columns and data
[0, 2] is accepted and collapsed to its channel average. -/
theorem c2_mean_file_is_global_average_witness :
    ((⟨1, 1, 2, [0, 2]⟩ : MeanBlob).channels = 1) ∧
    (SetMean (some ⟨1, 1, 2, [0, 2]⟩) "" 1 1 2 =
        Except.ok (meanFromFile ⟨1, 1, 2, [0, 2]⟩ 1 2) ∧
      (meanFromFile ⟨1, 1, 2, [0, 2]⟩ 1 2).px =
        fun _ _ ch => channelAvg (⟨1, 1, 2, [0, 2]⟩ : MeanBlob) ch) :=
  ⟨rfl, c2_mean_file_is_global_average ⟨1, 1, 2, [0, 2]⟩ 1 1 2 rfl⟩

/-- C2 counterexample: with mean file data [0, 2] (one channel, 1 x 2), the
value Preprocess subtracts at pixel (0, 0) is the global average 1, not that
position's file value 0: preprocessing an all-zero frame yields -1 in the
tensor buffer where the claim requires 0 - filePixel = 0. -/
theorem c2_claim_counterexample :
    (Preprocess ⟨1, 1, 2, fun _ _ _ => 0⟩ 1 1 2
        (meanFromFile ⟨1, 1, 2, [0, 2]⟩ 1 2)).buf 0 ≠
      0 - filePixel ⟨1, 1, 2, [0, 2]⟩ 0 0 0 := by
  decide

/-- C3 (code bug): the flag value "104" parses to the single scalar 104, the
value-count CHECK admits it for a 3-channel input, and the channel loop then
reads `values[1]` and `values[2]` past the end of the 1-element vector —
undefined behavior instead of the documented broadcast. -/
theorem c3_single_value_oob_read :
    ((getlineSplit "104").map atofQ = [104]) ∧
    SetMean none "104" 3 1 1 =
      Except.error "vector subscript out of range (undefined behavior)" := by
  exact ⟨by decide, rfl⟩


/-- The channel loop reads only in-range indices when enough values were
parsed: starting at index i with k channels left and i + k <= length, it
returns the corresponding slice of the value list. -/
theorem extractGo_in_range (values : List ℚ) :
    ∀ (k i : ℕ), i + k ≤ values.length →
      extractGo values i k = some ((values.drop i).take k) := by
  intro k
  induction k with
  | zero => intro i h; simp [extractGo]
  | succ k ih =>
    intro i h
    have hi : i < values.length := by omega
    have ha : values[i]? = some values[i] := List.getElem?_eq_getElem hi
    have hd : values.drop i = values[i] :: values.drop (i + 1) :=
      List.drop_eq_getElem_cons hi
    rw [extractGo, ha, ih (i + 1) (by omega), hd]
    rfl

/-- With exactly as many parsed values as channels, the channel loop succeeds
and reads back the whole value list. -/
theorem extractValueChannels_full (values : List ℚ) :
    extractValueChannels values values.length = some values := by
  rw [extractValueChannels, extractGo_in_range values values.length 0 (by omega)]
  simp

/-- C5: configuring both a mean file and mean values is a fatal CHECK failure
inside SetMean (which the Detector constructor runs at setup, before any frame
is acquired); configuring exactly one of the two, with channel counts
matching, succeeds. -/
theorem c5_mean_config_exclusive (blob : MeanBlob) (mv : String)
    (numChannels netH netW : ℕ) (hmv : mv ≠ "") (hc : blob.channels = numChannels)
    (hlen : (getlineSplit mv).length = numChannels) :
    isFatal (SetMean (some blob) mv numChannels netH netW) = true ∧
    isFatal (SetMean (some blob) "" numChannels netH netW) = false ∧
    isFatal (SetMean none mv numChannels netH netW) = false := by
  refine ⟨?_, ?_, ?_⟩
  · simp [SetMean, hmv, isFatal]
  · simp [SetMean, hc, isFatal]
  · have hlen2 : ((getlineSplit mv).map atofQ).length = numChannels := by
      rw [List.length_map]; exact hlen
    have hex : extractValueChannels ((getlineSplit mv).map atofQ) numChannels =
        some ((getlineSplit mv).map atofQ) := by
      rw [← hlen2]; exact extractValueChannels_full _
    simp [SetMean, hmv, hlen2, hex, isFatal]

/-- C5 witness: a 3-channel mean blob together with the default mean-value
flag "104,117,123" is rejected; each alone is accepted. -/
theorem c5_mean_config_exclusive_witness :
    (("104,117,123" : String) ≠ "" ∧ (⟨3, 1, 1, [1, 2, 3]⟩ : MeanBlob).channels = 3 ∧
      (getlineSplit "104,117,123").length = 3) ∧
    (isFatal (SetMean (some ⟨3, 1, 1, [1, 2, 3]⟩) "104,117,123" 3 4 5) = true ∧
      isFatal (SetMean (some ⟨3, 1, 1, [1, 2, 3]⟩) "" 3 4 5) = false ∧
      isFatal (SetMean none "104,117,123" 3 4 5) = false) :=
  ⟨⟨by decide, rfl, by decide⟩,
    c5_mean_config_exclusive ⟨3, 1, 1, [1, 2, 3]⟩ "104,117,123" 3 4 5
      (by decide) rfl (by decide)⟩


/-- The conditional resize always leaves the network height. -/
theorem resizeStep_height (s : Img) (netH netW : ℕ) :
    (resizeStep s netH netW).height = netH := by
  unfold resizeStep
  split
  · rfl
  · rename_i hcond
    exact (not_not.mp hcond).1

/-- The conditional resize always leaves the network width. -/
theorem resizeStep_width (s : Img) (netH netW : ℕ) :
    (resizeStep s netH netW).width = netW := by
  unfold resizeStep
  split
  · rfl
  · rename_i hcond
    exact (not_not.mp hcond).2

/-- The conditional resize never changes the channel count. -/
theorem resizeStep_channels (s : Img) (netH netW : ℕ) :
    (resizeStep s netH netW).channels = s.channels := by
  unfold resizeStep
  split <;> rfl

/-- C6: for every supported (source channels, network channels) pair,
Preprocess produces an input tensor of exactly the network shape
(channels x height x width); when the source already matches the target the
channel-conversion step is the identity, and when the size also matches the
whole of Preprocess reduces to mean subtraction plus the planar split. -/
theorem c6_preprocess_shape (img mean : Img) (numChannels netH netW : ℕ)
    (hp : (img.channels, numChannels) ∈ [(1, 1), (1, 3), (3, 1), (3, 3), (4, 1), (4, 3)]) :
    (Preprocess img numChannels netH netW mean).channels = numChannels ∧
    (Preprocess img numChannels netH netW mean).height = netH ∧
    (Preprocess img numChannels netH netW mean).width = netW ∧
    (img.channels = numChannels → sampleConvert img numChannels = img) ∧
    (img.channels = numChannels → img.height = netH → img.width = netW →
      Preprocess img numChannels netH netW mean = splitToTensor (subtractImg img mean)) := by
  have hchan : (sampleConvert img numChannels).channels = numChannels := by
    simp only [List.mem_cons, Prod.mk.injEq] at hp
    rcases hp with ⟨h1, h2⟩ | ⟨h1, h2⟩ | ⟨h1, h2⟩ | ⟨h1, h2⟩ | ⟨h1, h2⟩ | ⟨h1, h2⟩ | h7
    case inr.inr.inr.inr.inr.inr => exact absurd h7 (List.not_mem_nil _)
    all_goals
      simp [sampleConvert, cvtBGR2GRAY, cvtBGRA2GRAY, cvtBGRA2BGR, cvtGRAY2BGR, h1, h2]
  have hid : img.channels = numChannels → sampleConvert img numChannels = img := by
    intro hEq
    simp only [List.mem_cons, Prod.mk.injEq] at hp
    rcases hp with ⟨h1, h2⟩ | ⟨h1, h2⟩ | ⟨h1, h2⟩ | ⟨h1, h2⟩ | ⟨h1, h2⟩ | ⟨h1, h2⟩ | h7
    case inr.inr.inr.inr.inr.inr => exact absurd h7 (List.not_mem_nil _)
    all_goals
      first
        | (exfalso; omega)
        | (simp [sampleConvert, h1, h2])
  refine ⟨?_, ?_, ?_, hid, ?_⟩
  · show (resizeStep (sampleConvert img numChannels) netH netW).channels = numChannels
    rw [resizeStep_channels, hchan]
  · show (resizeStep (sampleConvert img numChannels) netH netW).height = netH
    exact resizeStep_height _ _ _
  · show (resizeStep (sampleConvert img numChannels) netH netW).width = netW
    exact resizeStep_width _ _ _
  · intro hEq hH hW
    have hr : resizeStep img netH netW = img := by
      rw [resizeStep, if_neg (not_not_intro ⟨hH, hW⟩)]
    show splitToTensor (subtractImg
      (convertToFloat (resizeStep (sampleConvert img numChannels) netH netW)) mean) =
      splitToTensor (subtractImg img mean)
    rw [hid hEq, hr]
    rfl

/-- C6 witness: a 3-channel 2 x 2 frame against a 3-channel 2 x 2 network
input, where conversion and resize are both the identity. -/
theorem c6_preprocess_shape_witness :
    (((⟨3, 2, 2, fun r c ch => ((r + c + ch : ℕ) : ℚ)⟩ : Img).channels, 3) ∈
      [(1, 1), (1, 3), (3, 1), (3, 3), (4, 1), (4, 3)]) ∧
    ((Preprocess ⟨3, 2, 2, fun r c ch => ((r + c + ch : ℕ) : ℚ)⟩ 3 2 2
        (⟨3, 2, 2, fun _ _ _ => 1⟩ : Img)).channels = 3 ∧
      (Preprocess ⟨3, 2, 2, fun r c ch => ((r + c + ch : ℕ) : ℚ)⟩ 3 2 2
        (⟨3, 2, 2, fun _ _ _ => 1⟩ : Img)).height = 2 ∧
      (Preprocess ⟨3, 2, 2, fun r c ch => ((r + c + ch : ℕ) : ℚ)⟩ 3 2 2
        (⟨3, 2, 2, fun _ _ _ => 1⟩ : Img)).width = 2 ∧
      ((⟨3, 2, 2, fun r c ch => ((r + c + ch : ℕ) : ℚ)⟩ : Img).channels = 3 →
        sampleConvert ⟨3, 2, 2, fun r c ch => ((r + c + ch : ℕ) : ℚ)⟩ 3 =
          ⟨3, 2, 2, fun r c ch => ((r + c + ch : ℕ) : ℚ)⟩) ∧
      ((⟨3, 2, 2, fun r c ch => ((r + c + ch : ℕ) : ℚ)⟩ : Img).channels = 3 →
        (⟨3, 2, 2, fun r c ch => ((r + c + ch : ℕ) : ℚ)⟩ : Img).height = 2 →
        (⟨3, 2, 2, fun r c ch => ((r + c + ch : ℕ) : ℚ)⟩ : Img).width = 2 →
        Preprocess ⟨3, 2, 2, fun r c ch => ((r + c + ch : ℕ) : ℚ)⟩ 3 2 2
            (⟨3, 2, 2, fun _ _ _ => 1⟩ : Img) =
          splitToTensor (subtractImg ⟨3, 2, 2, fun r c ch => ((r + c + ch : ℕ) : ℚ)⟩
            (⟨3, 2, 2, fun _ _ _ => 1⟩ : Img)))) :=
  ⟨by decide, c6_preprocess_shape _ _ 3 2 2 (by decide)⟩

/-- The pointer-advancing wrap loop lays the views out at consecutive
multiples of the plane size. -/
theorem wrapGo_eq_range (sz : ℕ) : ∀ (k off : ℕ),
    wrapGo sz off k = (List.range k).map (fun i => ⟨off + i * sz, sz⟩) := by
  intro k
  induction k with
  | zero => intro off; rfl
  | succ n ih =>
    intro off
    rw [wrapGo, ih (off + sz)]
    have hf : ((fun i => (⟨off + i * sz, sz⟩ : ChannelView)) ∘ Nat.succ) =
        fun i => (⟨off + sz + i * sz, sz⟩ : ChannelView) := by
      funext i
      show (⟨off + Nat.succ i * sz, sz⟩ : ChannelView) = ⟨off + sz + i * sz, sz⟩
      congr 1
      rw [Nat.succ_mul]
      ring
    rw [List.range_succ_eq_map, List.map_cons, List.map_map, hf]
    congr 1
    simp

/-- C7: the wrapped channel views form a planar partition of the input blob —
view i starts at offset i * (w * h) and spans w * h floats, the first view's
storage address is the blob's base address, the defensive aliasing check
passes on them, and on any view list whose first view is displaced the check
is the fatal CHECK failure. -/
theorem c7_wrap_planar_partition (numChannels w h : ℕ) (hc : 0 < numChannels) :
    WrapInputLayer numChannels w h =
      (List.range numChannels).map (fun i => ⟨i * (w * h), w * h⟩) ∧
    (WrapInputLayer numChannels w h).headD ⟨0, 0⟩ = ⟨0, w * h⟩ ∧
    aliasCheck (WrapInputLayer numChannels w h) = Except.ok () ∧
    aliasCheck [⟨1, 1⟩] =
      Except.error "Input channels are not wrapping the input layer of the network." := by
  have heq : WrapInputLayer numChannels w h =
      (List.range numChannels).map (fun i => ⟨i * (w * h), w * h⟩) := by
    rw [WrapInputLayer, wrapGo_eq_range (w * h) numChannels 0]
    simp
  obtain ⟨n, rfl⟩ : ∃ n, numChannels = n + 1 := ⟨numChannels - 1, by omega⟩
  have hh : (WrapInputLayer (n + 1) w h).headD ⟨0, 0⟩ = ⟨0, w * h⟩ := by
    rw [heq, List.range_succ_eq_map, List.map_cons]
    simp
  refine ⟨heq, hh, ?_, rfl⟩
  rw [aliasCheck, hh]
  rfl


/-- C7 witness: three channels of 2 x 2 planes tile the buffer at offsets
0, 4, 8 and pass the aliasing check. -/
theorem c7_wrap_planar_partition_witness :
    (0 < 3) ∧
    (WrapInputLayer 3 2 2 = (List.range 3).map (fun i => ⟨i * (2 * 2), 2 * 2⟩) ∧
      (WrapInputLayer 3 2 2).headD ⟨0, 0⟩ = ⟨0, 2 * 2⟩ ∧
      aliasCheck (WrapInputLayer 3 2 2) = Except.ok () ∧
      aliasCheck [⟨1, 1⟩] =
        Except.error "Input channels are not wrapping the input layer of the network.") :=
  ⟨by decide, c7_wrap_planar_partition 3 2 2 (by decide)⟩

/-- The frame loop's final logged count is its starting index plus the number
of decodable frames. -/
theorem videoGo_count (net : Img → List ℚ × ℕ) (θ : ℚ) (file : String) :
    ∀ (frames : List Img) (n : ℕ),
      (videoGo net θ file frames n).2 = n + frames.length := by
  intro frames
  induction frames with
  | nil => intro n; simp [videoGo]
  | cons f rest ih =>
    intro n
    simp [videoGo, ih (n + 1)]
    omega

/-- The frame loop labels frame k (counting from the starting index n) with
the file name and the zero-padded index n + k, in order. -/
theorem videoGo_labels (net : Img → List ℚ × ℕ) (θ : ℚ) (file : String) :
    ∀ (frames : List Img) (n : ℕ),
      (videoGo net θ file frames n).1.map Prod.fst =
        (List.range frames.length).map (fun i => file ++ "_" ++ zeroPad6 (n + i)) := by
  intro frames
  induction frames with
  | nil => intro n; simp [videoGo]
  | cons f rest ih =>
    intro n
    simp only [videoGo, List.length_cons, List.map_cons]
    rw [List.range_succ_eq_map, List.map_cons, List.map_map]
    congr 1
    rw [ih (n + 1)]
    have hf : ((fun i => file ++ "_" ++ zeroPad6 (n + i)) ∘ Nat.succ) =
        fun i => file ++ "_" ++ zeroPad6 ((n + 1) + i) := by
      funext i
      have harith : n + Nat.succ i = (n + 1) + i := by omega
      show file ++ "_" ++ zeroPad6 (n + Nat.succ i) = file ++ "_" ++ zeroPad6 ((n + 1) + i)
      rw [harith]
    rw [hf]

/-- C8: an unopenable video aborts fatally; an opened capture with N decodable
frames runs the loop to a clean (non-error) completion, logs the total count
N, and labels the frames' output lines in order with the file name and the
6-digit zero-padded indices 0 .. N-1 (zeroPad6 0 = "000000", zeroPad6 9 =
"000009"). -/
theorem c8_video_driver (net : Img → List ℚ × ℕ) (θ : ℚ) (file : String)
    (frames : List Img) :
    videoBranch net θ file none = Except.error ("Failed to open video: " ++ file) ∧
    videoBranch net θ file (some frames) = Except.ok (videoGo net θ file frames 0) ∧
    (videoGo net θ file frames 0).2 = frames.length ∧
    (videoGo net θ file frames 0).1.map Prod.fst =
      (List.range frames.length).map (fun i => file ++ "_" ++ zeroPad6 i) ∧
    (zeroPad6 0 = "000000" ∧ zeroPad6 9 = "000009") := by
  refine ⟨rfl, rfl, ?_, ?_, ⟨by decide, by decide⟩⟩
  · simpa using videoGo_count net θ file frames 0
  · rw [videoGo_labels net θ file frames 0]
    have hf : (fun i => file ++ "_" ++ zeroPad6 (0 + i)) =
        fun i => file ++ "_" ++ zeroPad6 i := by
      funext i
      rw [Nat.zero_add]
    rw [hf]

/-- C9: an empty RTSP frame pull logs the failure message and the loop goes
on: the iteration's control outcome never is a fatal abort, is the same as for
a successful pull, and is a break exactly when the user pressed 'q' —
independent of the pull's failure. -/
theorem c9_rtsp_empty_pull_continues (net : Img → List ℚ × ℕ) (θ : ℚ)
    (source file : String) (key : Char) (f : Img) :
    (rtspLoopStep net θ source file none key).ctl ≠ LoopCtl.fatal ∧
    (rtspLoopStep net θ source file none key).ctl =
      (rtspLoopStep net θ source file (some f) key).ctl ∧
    ("Can't get frame: " ++ source) ∈ (rtspLoopStep net θ source file none key).logs ∧
    ((rtspLoopStep net θ source file none key).ctl = LoopCtl.brk ↔ key = 'q') := by
  by_cases hk : key = 'q' <;>
    simp [rtspLoopStep, GetFrame, hk]

/-- C10: the algorithm config file has no effect on the settings the run uses:
for any two config-file contents the effective settings agree, being built
from the positional arguments and flag values alone — even though getAlgConf
does parse the recognized key=value lines into its locals. -/
theorem c10_algconf_no_effect (argv : List String) (flag_file_type : String)
    (flag_confidence_threshold : ℚ) (cfg1 cfg2 : List String) :
    mainEffectiveSettings argv flag_file_type flag_confidence_threshold cfg1 =
      mainEffectiveSettings argv flag_file_type flag_confidence_threshold cfg2 ∧
    getAlgConf ["threshold = 0.5", "type=video"] = ⟨"0.5", "video", "", "", ""⟩ :=
  ⟨rfl, by decide⟩

end
